import Mathlib

/-!
Verification of fcjs-core: a shallow embedding of the metadata-driven
route-compilation and documentation-generation core (route decorator,
DTO validation decorators, error envelopes, OpenAPI document builder),
with theorems settling the specified properties.

Sources embedded:
 - `src/decorators/route.decorator.ts` (registry, default status codes,
   `loadRoutes` dispatch wrapper, `globalErrorHandler`)
 - `src/decorators/body-dto.decorator.ts`, `query-dto.decorator.ts`,
   `response-dto.decorator.ts` (validation wrappers)
 - `src/utils/exceptions.util.ts` (HttpException hierarchy)
 - `src/utils/openapi.util.ts` (`OpenApiDoc` builder, `camelToHuman`)
The zod validator is an external dependency of the package; it is modelled
from its interface (strict object parse rejecting unknown keys; plain parse
checking declared fields) as the opaque schema capability the code consumes.
-/

namespace FCJs

/-- A JSON value, as produced by Express `res.json` serialization.
An `undefined` object property is dropped by serialization, so absence of a
key is represented by the key simply not being in the field list. -/
inductive Json where
  | null : Json
  | bool (b : Bool) : Json
  | str (s : String) : Json
  | num (n : Int) : Json
  | arr (elems : List Json) : Json
  | obj (fields : List (String × Json)) : Json

/-- A single validation issue as reported by the external validator
(`{path, message}`, cf. spec interface `Err(list of {path, message})`). -/
structure ZodIssue where
  path : List String
  message : String
deriving DecidableEq

/-- Primitive field types understood by the modelled schema capability. -/
inductive ZType where
  | string : ZType
  | number : ZType
  | boolean : ZType
  | any : ZType
deriving DecidableEq

/-- Type check of one field value against a primitive field type. -/
def ZType.check : ZType → Json → Bool
  | .string, .str _ => true
  | .number, .num _ => true
  | .boolean, .bool _ => true
  | .any, _ => true
  | _, _ => false

/-- An object shape: declared field names with their field types. -/
def ZShape : Type := List (String × ZType)

/-- Look up a key in a JSON object field list (first occurrence). -/
def lookupField (fields : List (String × Json)) (k : String) : Option Json :=
  match fields.find? (fun kv => kv.1 == k) with
  | some kv => some kv.2
  | none => none

/-- Whether an object shape declares a given field name. -/
def hasKey (shape : ZShape) (k : String) : Bool :=
  shape.any (fun f => f.1 == k)

/-- The keys of a JSON object that the shape does not declare. -/
def unknownKeys (shape : ZShape) (fields : List (String × Json)) : List String :=
  (fields.filter (fun kv => !(hasKey shape kv.1))).map (fun kv => kv.1)

/-- Issues for the declared fields: missing required field, or type mismatch. -/
def fieldIssues (shape : ZShape) (fields : List (String × Json)) : List ZodIssue :=
  shape.filterMap (fun f =>
    match lookupField fields f.1 with
    | none => some ⟨[f.1], "Required"⟩
    | some v => if f.2.check v then none else some ⟨[f.1], "Invalid type"⟩)

/-- Strict object parse (`schema.strict().parse(value)`): fails when the value
is not an object, when it contains a key the shape does not declare, or when a
declared field is missing or ill-typed. Model of the external validator's
strict-mode variant. -/
def strictParse (shape : ZShape) (v : Json) : Except (List ZodIssue) Json :=
  match v with
  | .obj fields =>
    let unk := unknownKeys shape fields
    let issues :=
      (if unk.isEmpty then [] else [⟨unk, "Unrecognized key(s) in object"⟩]) ++
        fieldIssues shape fields
    if issues.isEmpty then .ok (.obj fields) else .error issues
  | _ => .error [⟨[], "Expected object"⟩]

/-- Plain object parse (`schema.parse(value)`, non-strict): unknown keys are
stripped rather than rejected; declared fields are still checked. -/
def zodParse (shape : ZShape) (v : Json) : Except (List ZodIssue) Json :=
  match v with
  | .obj fields =>
    let issues := fieldIssues shape fields
    if issues.isEmpty then
      .ok (.obj (fields.filter (fun kv => hasKey shape kv.1)))
    else .error issues
  | _ => .error [⟨[], "Expected object"⟩]

/-- A schema value as passed to `ResponseDto` (any `ZodSchema`): either a
primitive type or an object shape. -/
inductive ZSchema where
  | prim (t : ZType) : ZSchema
  | object (shape : ZShape) : ZSchema

/-- Parse against an arbitrary schema. -/
def ZSchema.parse : ZSchema → Json → Except (List ZodIssue) Json
  | .prim t, v => if t.check v then .ok v else .error [⟨[], "Invalid type"⟩]
  | .object shape, v => zodParse shape v

/-- Serialization of an issue as carried in `err.errors` / `err.issues`. -/
def issueJson (i : ZodIssue) : Json :=
  .obj [("path", .arr (i.path.map Json.str)), ("message", .str i.message)]

/-- Serialization of an issue list, the structured details attached to the
translated exceptions. -/
def issuesJson (issues : List ZodIssue) : Json :=
  .arr (issues.map issueJson)

/-- The HTTP verbs of `route.decorator.ts` (`HttpMethod`). -/
inductive HttpMethod where
  | get : HttpMethod
  | post : HttpMethod
  | put : HttpMethod
  | patch : HttpMethod
  | delete : HttpMethod
deriving DecidableEq

/-- Embedding of `getDefaultStatusCode` from `route.decorator.ts`: POST 201, DELETE 204,
default 200. -/
def getDefaultStatusCode : HttpMethod → Nat
  | .post => 201
  | .delete => 204
  | _ => 200

/-- Embedding of `HttpException` from `exceptions.util.ts`: message, status code, optional
structured details. -/
structure HttpException where
  message : String
  statusCode : Nat
  details : Option Json

/-- The `BadRequestError` constructor (status 400). -/
def BadRequestError (message : String) (details : Option Json) : HttpException :=
  ⟨message, 400, details⟩

/-- The `InternalServerError` constructor (status 500). -/
def InternalServerError (message : String) (details : Option Json) : HttpException :=
  ⟨message, 500, details⟩

/-- A thrown value escaping a handler or middleware: a declared failure
(`HttpException`), a validator error (`ZodError`), or anything else
(undeclared failure carrying its own message). -/
inductive Thrown where
  | http (e : HttpException) : Thrown
  | zod (issues : List ZodIssue) : Thrown
  | other (message : String) : Thrown

/-- The outcome of invoking a (possibly wrapped) handler. -/
inductive Outcome where
  | ok (value : Json) : Outcome
  | thrown (t : Thrown) : Outcome

/-- A live request: its raw body and raw query object. -/
structure Request where
  body : Json
  query : Json

/-- The `BodyDto` decorator wrapper (`body-dto.decorator.ts`): the replaced
method runs `schema.strict().parse(req.body)` and then the original method
inside one `try`; any `ZodError` escaping the block (from the strict parse, or
from the original method itself) is rethrown as
`BadRequestError('Invalid Request body', err.issues)`; other thrown values are
rethrown unchanged. -/
def BodyDto (schema : ZShape) (originalMethod : Request → Outcome) (req : Request) : Outcome :=
  match strictParse schema req.body with
  | .error issues => .thrown (.http (BadRequestError "Invalid Request body" (some (issuesJson issues))))
  | .ok _ =>
    match originalMethod req with
    | .thrown (.zod issues) => .thrown (.http (BadRequestError "Invalid Request body" (some (issuesJson issues))))
    | o => o

/-- The `QueryDto` decorator wrapper (`query-dto.decorator.ts`): same shape as
`BodyDto` but over `req.query`, rethrowing `ZodError`s as
`BadRequestError('Invalid Request query params', err.errors)`. -/
def QueryDto (schema : ZShape) (originalMethod : Request → Outcome) (req : Request) : Outcome :=
  match strictParse schema req.query with
  | .error issues => .thrown (.http (BadRequestError "Invalid Request query params" (some (issuesJson issues))))
  | .ok _ =>
    match originalMethod req with
    | .thrown (.zod issues) => .thrown (.http (BadRequestError "Invalid Request query params" (some (issuesJson issues))))
    | o => o

/-- The `ResponseDto` decorator wrapper (`response-dto.decorator.ts`): runs the
original method first, then `schema.parse(result)` on its return value; any
`ZodError` escaping the block is rethrown as
`InternalServerError('Invalid Response body', err.issues)`; other thrown
values are rethrown unchanged. -/
def ResponseDto (schema : ZSchema) (originalMethod : Request → Outcome) (req : Request) : Outcome :=
  match originalMethod req with
  | .ok result =>
    match schema.parse result with
    | .ok validated => .ok validated
    | .error issues => .thrown (.http (InternalServerError "Invalid Response body" (some (issuesJson issues))))
  | .thrown (.zod issues) => .thrown (.http (InternalServerError "Invalid Response body" (some (issuesJson issues))))
  | o => o

/-- A wire response sent to the client: status code and optional JSON body
(`none` when no body is emitted at all). -/
structure WireResponse where
  status : Nat
  body : Option Json

/-- The success envelope `{success: true, data: result}` of
`route.decorator.ts` line 132. -/
def successEnvelope (result : Json) : Json :=
  .obj [("success", .bool true), ("data", result)]

/-- Success-completion step of the dispatch wrapper (`route.decorator.ts`
lines 128-134): if `res.headersSent` nothing further is emitted; otherwise the
verb's default status is set and, unless that status is 204, the body is the
success envelope. -/
def routeSuccessResponse (method : HttpMethod) (headersSent : Bool) (result : Json) : Option WireResponse :=
  if headersSent then none
  else
    let status := getDefaultStatusCode method
    if status ≠ 204 then some ⟨status, some (successEnvelope result)⟩
    else some ⟨status, none⟩

/-- The `catch` block of the dispatch wrapper (`route.decorator.ts` lines
135-148): an `HttpException` is answered at its own status code with
`{success: false, error: err.message, details: err.details ?? null}`; any
other thrown value is answered at 500 with
`{success: false, error: 'Internal server error', details: null}`. -/
def routeErrorResponse : Thrown → WireResponse
  | .http e =>
    ⟨e.statusCode, some (.obj [("success", .bool false), ("error", .str e.message),
      ("details", e.details.getD .null)])⟩
  | _ =>
    ⟨500, some (.obj [("success", .bool false), ("error", .str "Internal server error"),
      ("details", .null)])⟩

/-- The `globalErrorHandler` (`route.decorator.ts` lines 181-199): an
`HttpException` is answered at its own status code with
`{success: false, error: err.message, details: err.details}` — when
`err.details` is `undefined` the serialized body has no `details` key; any
other thrown value is answered at 500 with
`{success: false, error: 'Internal server error'}` with no `details` key. -/
def globalErrorHandler : Thrown → WireResponse
  | .http e =>
    ⟨e.statusCode, some (.obj ([("success", .bool false), ("error", .str e.message)] ++
      (match e.details with
       | some d => [("details", d)]
       | none => [])))⟩
  | _ =>
    ⟨500, some (.obj [("success", .bool false), ("error", .str "Internal server error")])⟩

/-- The result of running one middleware step: proceed (it called `next()`),
or raise a thrown value that Express routes to the global error handler. -/
inductive MwResult where
  | proceed : MwResult
  | raised (t : Thrown) : MwResult

/-- Run the declared middleware chain in order, stopping at the first step
that raises. -/
def runMiddlewares (mws : List (Request → MwResult)) (req : Request) : MwResult :=
  match mws with
  | [] => .proceed
  | m :: rest =>
    match m req with
    | .proceed => runMiddlewares rest req
    | r => r

/-- One dispatched request through a compiled route (`route.decorator.ts`
lines 121-159 plus the mounted `globalErrorHandler`): middleware steps run
before the wrapped handler and a failure raised there is routed to the global
error handler; otherwise the handler runs and its outcome is shaped by the
wrapper's success path or its `catch` block. `headersSent` records whether the
handler already sent the response itself; `none` means the wrapper emitted
nothing further. -/
def dispatch (method : HttpMethod) (mws : List (Request → MwResult))
    (handler : Request → Outcome) (headersSent : Bool) (req : Request) : Option WireResponse :=
  match runMiddlewares mws req with
  | .raised t => some (globalErrorHandler t)
  | .proceed =>
    match handler req with
    | .ok result => routeSuccessResponse method headersSent result
    | .thrown t => some (routeErrorResponse t)

/-- Middleware documentation metadata as read by `OpenApiDoc` under
`openapiMWMetadataKey` (optional header key plus description; cf. spec §3
MiddlewareDescriptor — `middleware.decorator.ts` itself is out of the embedded
compilation core, only its documented fields are used here). -/
structure MiddlewareMeta where
  headerKey : Option String
  description : String

/-- The per-handler reflection metadata read by `OpenApiDoc`: the four
optional entries stored under the body/query/response/middleware keys. -/
structure HandlerMeta where
  querySchema : Option ZShape
  bodySchema : Option ZShape
  responseSchema : Option ZSchema
  middlewareMeta : Option MiddlewareMeta

/-- Embedding of `RouteDefinition` from `route.decorator.ts`. -/
structure RouteDefinition where
  path : String
  method : HttpMethod
  handlerName : String
deriving DecidableEq

/-- A registered controller as seen through reflection metadata: its class
name, the base path stored under `basePathMetadataKey` (`none` when the
metadata was never defined), its route list under `routesMetadataKey`, and the
per-handler metadata keyed by handler name. -/
structure Controller where
  name : String
  basePath : Option String
  routes : List RouteDefinition
  meta : String → HandlerMeta

/-- Embedding of `registerController` from `route.decorator.ts` lines 38-40: an
unconditional `push` onto the registry array. -/
def registerController (registry : List Controller) (controller : Controller) : List Controller :=
  registry ++ [controller]

/-- JavaScript string truthiness of the optional base-path metadata:
`undefined` and the empty string are falsy. -/
def strTruthy : Option String → Bool
  | some s => !s.isEmpty
  | none => false

/-- Evaluation of `Reflect.getMetadata(basePathMetadataKey, Controller) || '/'`
in `loadRoutes` (line 108-109): the stored base path when truthy, else `'/'`. -/
def basePathOrDefault (basePath : Option String) : String :=
  match basePath with
  | some s => if s.isEmpty then "/" else s
  | none => "/"

/-- One route as mounted on the Express application by `loadRoutes`: the
router for the controller's base path receives the verb, sub-path and wrapped
handler. -/
structure MountedRoute where
  basePath : String
  method : HttpMethod
  path : String
  handlerName : String
deriving DecidableEq

/-- The route table produced by `loadRoutes` (`route.decorator.ts` lines
103-179): for every controller — with no skip condition — the base path
defaults to `'/'` when the metadata is missing or empty, and every declared
route of the controller is mounted under it. -/
def loadRoutes (controllers : List Controller) : List MountedRoute :=
  controllers.flatMap (fun c =>
    let basePath := basePathOrDefault c.basePath
    c.routes.map (fun r => ⟨basePath, r.method, r.path, r.handlerName⟩))

/-- A word character of the JavaScript regex class `\w`:
`[A-Za-z0-9_]`. -/
def isWordChar (c : Char) : Bool :=
  c.isAlphanum || c == '_'

/-- Embedding of the collapse step `fullPath.replace` of repeated slashes (`openapi.util.ts` line 67): collapse
every run of consecutive slashes into one. -/
def collapseSlashes : List Char → List Char
  | [] => []
  | [c] => [c]
  | c₁ :: c₂ :: rest =>
    if c₁ == '/' && c₂ == '/' then collapseSlashes (c₂ :: rest)
    else c₁ :: collapseSlashes (c₂ :: rest)

/-- Embedding of the placeholder rewrite (`openapi.util.ts` lines 68-72): scan the
character list; at a `:` followed by at least one word character, the maximal
word-character run is the placeholder name, rewritten to the brace-delimited
form and recorded; every other character is copied. The fuel argument is the
remaining input length; each step consumes at least one character. -/
def rewriteAux : Nat → List Char → List Char × List String
  | 0, _ => ([], [])
  | _ + 1, [] => ([], [])
  | fuel + 1, c :: rest =>
    if c == ':' && !(rest.takeWhile isWordChar).isEmpty then
      let key := rest.takeWhile isWordChar
      let res := rewriteAux fuel (rest.dropWhile isWordChar)
      ('\x7b' :: (key ++ '\x7d' :: res.1), String.mk key :: res.2)
    else
      let res := rewriteAux fuel rest
      (c :: res.1, res.2)

/-- Placeholder rewriting over a whole character list. -/
def rewritePlaceholders (l : List Char) : List Char × List String :=
  rewriteAux l.length l

/-- Dropping a word-character run never lengthens the input. -/
theorem length_dropWhile_word_le (l : List Char) :
    (l.dropWhile isWordChar).length ≤ l.length := by
  induction l with
  | nil => simp
  | cons c cs ih =>
    by_cases h : isWordChar c
    · simp only [List.dropWhile_cons, h, if_true, List.length_cons]
      exact Nat.le_succ_of_le ih
    · simp [List.dropWhile_cons, h]

/-- The fuel of `rewriteAux` is irrelevant as soon as it covers the input
length: the scan consumes at least one character per step, so
`rewritePlaceholders` never hits the fuel-exhaustion branch. -/
theorem rewriteAux_fuel_stable : ∀ (n : Nat) (l : List Char) (a b : Nat),
    l.length ≤ n → l.length ≤ a → l.length ≤ b →
    rewriteAux a l = rewriteAux b l := by
  intro n
  induction n with
  | zero =>
    intro l a b hn _ _
    have hl : l = [] := List.eq_nil_of_length_eq_zero (Nat.le_zero.mp hn)
    subst hl
    cases a <;> cases b <;> rfl
  | succ n ih =>
    intro l a b hn ha hb
    cases l with
    | nil => cases a <;> cases b <;> rfl
    | cons c rest =>
      cases a with
      | zero => simp only [List.length_cons] at ha; omega
      | succ a =>
        cases b with
        | zero => simp only [List.length_cons] at hb; omega
        | succ b =>
          simp only [List.length_cons] at hn ha hb
          simp only [rewriteAux]
          by_cases hc : (c == ':' && !(rest.takeWhile isWordChar).isEmpty) = true
          · rw [if_pos hc, if_pos hc,
              ih (rest.dropWhile isWordChar) a b
                (le_trans (length_dropWhile_word_le rest) (by omega))
                (le_trans (length_dropWhile_word_le rest) (by omega))
                (le_trans (length_dropWhile_word_le rest) (by omega))]
          · rw [if_neg hc, if_neg hc, ih rest a b (by omega) (by omega) (by omega)]

/-- Any sufficient fuel computes `rewritePlaceholders`. -/
theorem rewriteAux_eq_rewritePlaceholders (l : List Char) (fuel : Nat)
    (h : l.length ≤ fuel) : rewriteAux fuel l = rewritePlaceholders l :=
  rewriteAux_fuel_stable fuel l fuel l.length h h (le_refl _)

/-- Semantics of `pathSchema.merge` with a fresh single-string-key object: merging a key already
in the shape overwrites it in place, a new key is appended; with all values
`z.string()` this is first-occurrence deduplication of the key list. -/
def mergeKey (keys : List String) (k : String) : List String :=
  if keys.contains k then keys else keys ++ [k]

/-- The accumulated path-schema keys after all placeholder rewrites. -/
def dedupKeys (ks : List String) : List String :=
  ks.foldl mergeKey []

/-- The path normalization of `OpenApiDoc` (`openapi.util.ts` lines 65-72):
collapse repeated slashes in the composed path, then rewrite each `:name`
placeholder to `\x7bname\x7d`, returning the normalized path together with
the path-schema key list. -/
def normalizePath (fullPath : String) : String × List String :=
  let collapsed := collapseSlashes fullPath.data
  let res := rewritePlaceholders collapsed
  (String.mk res.1, dedupKeys res.2)

/-- Embedding of the capitalization split of `camelToHuman`: put a space before every uppercase
letter. -/
def spaceBeforeCaps (l : List Char) : List Char :=
  l.flatMap (fun c => if c.isUpper then [' ', c] else [c])

/-- Capitalization of the first word of `camelToHuman`. -/
def capitalizeWord (w : String) : String :=
  match w.data with
  | [] => ""
  | c :: cs => String.mk (c.toUpper :: cs.map Char.toLower)

/-- Embedding of `camelToHuman` from `openapi.util.ts` lines 170-181: split the handler
identifier on capitalization boundaries, capitalize the first word, lowercase
the rest, and join with spaces. -/
def camelToHuman (str : String) : String :=
  let spaced := String.mk (spaceBeforeCaps str.data)
  let words := spaced.trim.splitOn " "
  let mapped := words.enum.map (fun p =>
    if p.1 = 0 then capitalizeWord p.2 else p.2.map Char.toLower)
  String.intercalate " " mapped

/-- The symbolic form of the zod schema placed in a documented response
entry: either the generic error envelope built by `errorSchema(mssg)` or the
success envelope `{success, data: responseSchema}`. -/
inductive DocSchema where
  | errorEnvelope (message : String) : DocSchema
  | successEnvelope (data : ZSchema) : DocSchema

/-- One entry of the documented response map: its description and its
optional content schema. -/
structure ResponseEntry where
  description : String
  schema : Option DocSchema

/-- Embedding of `errorSchema(mssg)` from `openapi.util.ts` lines 101-115: a response
entry described by `mssg` whose schema is the generic error envelope. -/
def errorSchema (mssg : String) : ResponseEntry :=
  ⟨mssg, some (.errorEnvelope mssg)⟩

/-- Insertion-ordered key update of a JavaScript object: an existing key keeps
its position and is overwritten, a new key is appended. -/
def upsert {κ α : Type} [DecidableEq κ] (m : List (κ × α)) (k : κ) (v : α) : List (κ × α) :=
  match m with
  | [] => [(k, v)]
  | (k₀, v₀) :: rest => if k₀ = k then (k, v) :: rest else (k₀, v₀) :: upsert rest k v

/-- First-occurrence key lookup in a JavaScript-object model. -/
def lookupKey {κ α : Type} [DecidableEq κ] (m : List (κ × α)) (k : κ) : Option α :=
  match m with
  | [] => none
  | (k₀, v₀) :: rest => if k₀ = k then some v₀ else lookupKey rest k

/-- The response map built by `OpenApiDoc` (`openapi.util.ts` lines 116-143):
always a 500 entry; a 400 entry when a body or query schema is declared; a 401
entry when middleware metadata is declared; a 404 entry when the path schema
has at least one key; finally an entry at the verb's default status code,
carrying the success envelope when a response schema is declared and a bare
description otherwise. -/
def buildResponses (method : HttpMethod) (bodySchema querySchema : Option ZShape)
    (middlewareMeta : Option MiddlewareMeta) (responseSchema : Option ZSchema)
    (pathParamCount : Nat) : List (Nat × ResponseEntry) :=
  let r₀ : List (Nat × ResponseEntry) := [(500, errorSchema "Internal Server Error")]
  let r₁ := if bodySchema.isSome || querySchema.isSome then upsert r₀ 400 (errorSchema "Bad Request") else r₀
  let r₂ := if middlewareMeta.isSome then upsert r₁ 401 (errorSchema "Unauthorized") else r₁
  let r₃ := if pathParamCount ≠ 0 then upsert r₂ 404 (errorSchema "Not Found") else r₂
  upsert r₃ (getDefaultStatusCode method)
    (match responseSchema with
     | some rs => ⟨"Success", some (.successEnvelope rs)⟩
     | none => ⟨"Success", none⟩)

/-- One documented operation (`openapi.util.ts` lines 145-155): tags,
operation id and summary from `camelToHuman`, the request parameter schemas,
the optional request body schema, and the response map. -/
structure Operation where
  tags : List String
  operationId : String
  summary : String
  pathParams : List (String × ZType)
  queryParams : Option ZShape
  headerParams : List (String × String)
  requestBody : Option ZShape
  responses : List (Nat × ResponseEntry)

/-- The path-to-operations map of the document under construction. -/
def PathsMap : Type := List (String × List (HttpMethod × Operation))

/-- Build one operation from a controller, its base path and one route
(`openapi.util.ts` lines 41-155): read the handler metadata, normalize
`basePath ++ path`, register every placeholder as a required string path
parameter, attach the header parameter when the middleware metadata declares a
header key, and build the response map. Returns the normalized path with the
operation. -/
def mkOperation (c : Controller) (basePath : String) (r : RouteDefinition) : String × Operation :=
  let m := c.meta r.handlerName
  let np := normalizePath (basePath ++ r.path)
  let headerParams :=
    match m.middlewareMeta with
    | some mw =>
      match mw.headerKey with
      | some k => [(k, mw.description)]
      | none => []
    | none => []
  (np.1,
   { tags := [c.name]
     operationId := camelToHuman r.handlerName
     summary := camelToHuman r.handlerName
     pathParams := np.2.map (fun k => (k, ZType.string))
     queryParams := m.querySchema
     headerParams := headerParams
     requestBody := m.bodySchema
     responses := buildResponses r.method m.bodySchema m.querySchema m.middlewareMeta
       m.responseSchema np.2.length })

/-- Embedding of the path-entry merge (`paths[normalizedPath]` spread with
the new verb keyed in): sibling verbs under one normalized path merge into one path
entry. -/
def docAddRoute (paths : PathsMap) (c : Controller) (basePath : String)
    (r : RouteDefinition) : PathsMap :=
  let po := mkOperation c basePath r
  upsert paths po.1 (upsert ((lookupKey paths po.1).getD []) r.method po.2)

/-- The skip rule of `OpenApiDoc` (`openapi.util.ts` line 32):
`!basePath || routes.length === 0`. -/
def docSkip (c : Controller) : Bool :=
  !strTruthy c.basePath || c.routes.isEmpty

/-- One controller's contribution to the paths map: skipped controllers leave
the map untouched; otherwise every declared route is folded in, in
declaration order. -/
def docAddController (paths : PathsMap) (c : Controller) : PathsMap :=
  if docSkip c then paths
  else c.routes.foldl (fun ps r => docAddRoute ps c (c.basePath.getD "") r) paths

/-- The warning `OpenApiDoc` logs for one skipped controller
(`openapi.util.ts` lines 33-38). -/
def docWarnMessage (c : Controller) : String :=
  "Controller \"" ++ (if c.name.isEmpty then "Unknown" else c.name) ++
    "\" is missing route metadata and will be skipped in OpenAPI docs."

/-- The warnings emitted while building the document, in registry order. -/
def docWarnings (controllers : List Controller) : List String :=
  controllers.filterMap (fun c => if docSkip c then some (docWarnMessage c) else none)

/-- The generated document (`createDocument` call, `openapi.util.ts` lines
159-166): fixed OpenAPI version `'3.1.0'`, the configurable title, fixed info
version `'1.0.0'`, and the paths map folded from the registry in registration
order. -/
structure OpenApiDocument where
  openapi : String
  title : String
  version : String
  paths : PathsMap

/-- Embedding of the `OpenApiDoc` construction (`openapi.util.ts` lines 17-167) as a pure fold
of the registry state. -/
def OpenApiDoc (controllers : List Controller) (title : String) : OpenApiDocument :=
  ⟨"3.1.0", title, "1.0.0", controllers.foldl docAddController []⟩

/-- The undeclared-failure wire envelope exactly as the specification words
it: `\x7bsuccess: false, error: "Internal server error", details: null\x7d`.
Stated from the spec for comparison with the embedded handlers. -/
def specUndeclaredEnvelope : Json :=
  .obj [("success", .bool false), ("error", .str "Internal server error"), ("details", .null)]

/-- A controller registered without base-path metadata but with one declared
route (used as a concrete test input). -/
def noBaseController : Controller :=
  ⟨"NoBase", none, [⟨"/ping", .get, "ping"⟩], fun _ => ⟨none, none, none, none⟩⟩

/-- A well-configured controller with one route containing two path
placeholders (used as a concrete test input). -/
def demoController : Controller :=
  ⟨"Demo", some "/api", [⟨"/users/:id/orders/:orderId", .get, "getUserOrder"⟩],
   fun _ => ⟨none, none, none, none⟩⟩

/-- C1 — counterexample: the claim requires every undeclared failure, on
every path it can reach the client, to produce the envelope with
`details: null`; but an undeclared failure routed through the global error
handler produces a body with no `details` key at all. -/
theorem C1_counterexample :
    globalErrorHandler (.other "middleware exploded") ≠
      ⟨500, some specUndeclaredEnvelope⟩ := by
  simp [globalErrorHandler, specUndeclaredEnvelope]

/-- C1 (amended): the route-level catch produces exactly the two claimed
envelopes (declared failures at their status with `details` or null;
undeclared failures as the generic 500 envelope with `details: null`, never
carrying the original message); the global error handler produces the same
status codes and error messages, is independent of an undeclared failure's
message, but serializes a declared failure's `details` verbatim (omitting the
key when absent) and omits `details` entirely for undeclared failures; and a
middleware failure is routed to the global error handler while a handler
failure is answered by the route-level catch. -/
theorem C1_failure_envelopes :
    (∀ e : HttpException, routeErrorResponse (.http e) =
      ⟨e.statusCode, some (.obj [("success", .bool false), ("error", .str e.message),
        ("details", e.details.getD .null)])⟩)
  ∧ (∀ message, routeErrorResponse (.other message) = ⟨500, some specUndeclaredEnvelope⟩)
  ∧ (∀ issues, routeErrorResponse (.zod issues) = ⟨500, some specUndeclaredEnvelope⟩)
  ∧ (∀ e : HttpException, globalErrorHandler (.http e) =
      ⟨e.statusCode, some (.obj ([("success", .bool false), ("error", .str e.message)] ++
        (match e.details with
         | some d => [("details", d)]
         | none => [])))⟩)
  ∧ (∀ m₁ m₂, globalErrorHandler (.other m₁) = globalErrorHandler (.other m₂))
  ∧ (∀ message, globalErrorHandler (.other message) =
      ⟨500, some (.obj [("success", .bool false), ("error", .str "Internal server error")])⟩)
  ∧ (∀ (method : HttpMethod) (t : Thrown) (handler : Request → Outcome)
       (headersSent : Bool) (req : Request),
      dispatch method [fun _ => MwResult.raised t] handler headersSent req =
        some (globalErrorHandler t))
  ∧ (∀ (method : HttpMethod) (t : Thrown) (headersSent : Bool) (req : Request),
      dispatch method [] (fun _ => .thrown t) headersSent req =
        some (routeErrorResponse t)) :=
  ⟨fun _ => rfl, fun _ => rfl, fun _ => rfl, fun _ => rfl, fun _ _ => rfl,
   fun _ => rfl, fun _ _ _ _ _ => rfl, fun _ _ _ _ => rfl⟩

/-- C6 — counterexample: registering the same controller identity twice does
not fail; it silently appends a second entry to the registry. -/
theorem C6_counterexample :
    registerController (registerController [] noBaseController) noBaseController =
      [noBaseController, noBaseController] ∧
    (registerController (registerController [] noBaseController) noBaseController).length = 2 :=
  ⟨rfl, rfl⟩

/-- C6 (amended): `registerController` is an unconditional append to the
registry's ordered collection — a duplicate registration appends a second
entry and no error of any kind is raised. -/
theorem C6_register_appends (registry : List Controller) (controller : Controller) :
    registerController registry controller = registry ++ [controller]
  ∧ (registerController registry controller).length = registry.length + 1 :=
  ⟨rfl, by simp [registerController]⟩

/-- C7: the default success status is 201 for POST, 204 for DELETE and 200
for every other verb, as a function of the verb only; on handler success with
no headers sent, the body is the `\x7bsuccess: true, data: ...\x7d` envelope
at that status, except for the 204 case where no body is emitted; the
dispatch pipeline with no middleware agrees with this completion step. -/
theorem C7_default_status_and_envelope (result : Json) (req : Request) :
    (getDefaultStatusCode .post = 201 ∧ getDefaultStatusCode .delete = 204
     ∧ getDefaultStatusCode .get = 200 ∧ getDefaultStatusCode .put = 200
     ∧ getDefaultStatusCode .patch = 200)
  ∧ routeSuccessResponse .post false result = some ⟨201, some (successEnvelope result)⟩
  ∧ routeSuccessResponse .delete false result = some ⟨204, none⟩
  ∧ routeSuccessResponse .get false result = some ⟨200, some (successEnvelope result)⟩
  ∧ routeSuccessResponse .put false result = some ⟨200, some (successEnvelope result)⟩
  ∧ routeSuccessResponse .patch false result = some ⟨200, some (successEnvelope result)⟩
  ∧ (∀ method : HttpMethod, dispatch method [] (fun _ => .ok result) false req =
      routeSuccessResponse method false result) :=
  ⟨⟨rfl, rfl, rfl, rfl, rfl⟩, rfl, rfl, rfl, rfl, rfl, fun _ => rfl⟩

/-- C10: when the handler has already sent the response (`res.headersSent`),
the dispatch wrapper emits nothing further — neither the default status nor
the success envelope; when no headers have been sent, it always emits a
response. -/
theorem C10_headers_sent (method : HttpMethod) (result : Json) (req : Request) :
    routeSuccessResponse method true result = none
  ∧ dispatch method [] (fun _ => .ok result) true req = none
  ∧ (routeSuccessResponse method false result).isSome = true := by
  refine ⟨rfl, rfl, ?_⟩
  cases method <;> rfl

/-- C9: documentation generation is a pure function of the registry state and
the title — building twice from the same unchanged registry yields
structurally identical documents, path maps included. -/
theorem C9_doc_deterministic (reg₁ reg₂ : List Controller) (title : String)
    (h : reg₁ = reg₂) :
    OpenApiDoc reg₁ title = OpenApiDoc reg₂ title
  ∧ (OpenApiDoc reg₁ title).paths = (OpenApiDoc reg₂ title).paths := by
  subst h
  exact ⟨rfl, rfl⟩

/-- C9 — witness: the determinism theorem applied to a concrete registry. -/
theorem C9_doc_deterministic_witness :
    OpenApiDoc [demoController] "Docs" = OpenApiDoc [demoController] "Docs"
  ∧ (OpenApiDoc [demoController] "Docs").paths = (OpenApiDoc [demoController] "Docs").paths :=
  C9_doc_deterministic [demoController] [demoController] "Docs" rfl

/-- C8: composing base path `/api` with sub-path `/users/:id/orders/:orderId`
documents path `/api/users/\x7bid\x7d/orders/\x7borderId\x7d` with both `id`
and `orderId` registered as required string path parameters; repeated
separators are collapsed. -/
theorem C8_path_normalization :
    (mkOperation demoController "/api" ⟨"/users/:id/orders/:orderId", .get, "getUserOrder"⟩).1 =
      "/api/users/\x7bid\x7d/orders/\x7borderId\x7d"
  ∧ (mkOperation demoController "/api" ⟨"/users/:id/orders/:orderId", .get, "getUserOrder"⟩).2.pathParams =
      [("id", ZType.string), ("orderId", ZType.string)]
  ∧ normalizePath ("/api" ++ "/users/:id/orders/:orderId") =
      ("/api/users/\x7bid\x7d/orders/\x7borderId\x7d", ["id", "orderId"])
  ∧ normalizePath "/api//users///:id" = ("/api/users/\x7bid\x7d", ["id"]) :=
  ⟨rfl, rfl, rfl, rfl⟩

/-- Lookup of every status entry in the response map built by
`buildResponses`, by exhaustive case analysis over the metadata presence
flags and the verb. -/
theorem lookup_buildResponses (method : HttpMethod) (b q : Option ZShape)
    (mw : Option MiddlewareMeta) (rs : Option ZSchema) (n : Nat) :
    lookupKey (buildResponses method b q mw rs n) 500 = some (errorSchema "Internal Server Error")
  ∧ (lookupKey (buildResponses method b q mw rs n) 400).isSome = (b.isSome || q.isSome)
  ∧ (lookupKey (buildResponses method b q mw rs n) 401).isSome = mw.isSome
  ∧ (lookupKey (buildResponses method b q mw rs n) 404).isSome = decide (n ≠ 0)
  ∧ lookupKey (buildResponses method b q mw rs n) (getDefaultStatusCode method) =
      some (match rs with
            | some s => ⟨"Success", some (.successEnvelope s)⟩
            | none => ⟨"Success", none⟩) := by
  by_cases hn : n = 0 <;>
    cases method <;> cases b <;> cases q <;> cases mw <;> cases rs <;>
    simp [buildResponses, upsert, lookupKey, getDefaultStatusCode, hn]

/-- C2: for every documented operation, the response map always has a 500
entry (the generic internal-error schema); a 400 entry exactly when a body or
query shape is declared for the handler; a 401 entry exactly when a middleware
descriptor is declared; a 404 entry exactly when the composed path contains at
least one `:name` placeholder; and an entry at the verb's default status code
whose schema is the success envelope over the declared response shape, or a
bare description with no schema when none is declared. -/
theorem C2_response_map (c : Controller) (basePath : String) (r : RouteDefinition) :
    lookupKey (mkOperation c basePath r).2.responses 500 = some (errorSchema "Internal Server Error")
  ∧ (lookupKey (mkOperation c basePath r).2.responses 400).isSome =
      ((c.meta r.handlerName).bodySchema.isSome || (c.meta r.handlerName).querySchema.isSome)
  ∧ (lookupKey (mkOperation c basePath r).2.responses 401).isSome =
      (c.meta r.handlerName).middlewareMeta.isSome
  ∧ (lookupKey (mkOperation c basePath r).2.responses 404).isSome =
      !(normalizePath (basePath ++ r.path)).2.isEmpty
  ∧ lookupKey (mkOperation c basePath r).2.responses (getDefaultStatusCode r.method) =
      some (match (c.meta r.handlerName).responseSchema with
            | some s => ⟨"Success", some (.successEnvelope s)⟩
            | none => ⟨"Success", none⟩) := by
  have h := lookup_buildResponses r.method (c.meta r.handlerName).bodySchema
    (c.meta r.handlerName).querySchema (c.meta r.handlerName).middlewareMeta
    (c.meta r.handlerName).responseSchema (normalizePath (basePath ++ r.path)).2.length
  have hresp : (mkOperation c basePath r).2.responses =
      buildResponses r.method (c.meta r.handlerName).bodySchema
        (c.meta r.handlerName).querySchema (c.meta r.handlerName).middlewareMeta
        (c.meta r.handlerName).responseSchema (normalizePath (basePath ++ r.path)).2.length := rfl
  rw [hresp]
  refine ⟨h.1, h.2.1, h.2.2.1, ?_, h.2.2.2.2⟩
  rw [h.2.2.2.1]
  cases (normalizePath (basePath ++ r.path)).2 <;> simp

/-- A strict parse of an object containing a key the shape does not declare
fails, reporting the unrecognized keys first. -/
theorem strictParse_undeclared_key (shape : ZShape) (fields : List (String × Json))
    (k : String) (v : Json) (hmem : (k, v) ∈ fields) (hundecl : hasKey shape k = false) :
    strictParse shape (.obj fields) =
      .error (⟨unknownKeys shape fields, "Unrecognized key(s) in object"⟩ ::
        fieldIssues shape fields) := by
  have hfil : (k, v) ∈ fields.filter (fun kv => !(hasKey shape kv.1)) :=
    List.mem_filter.mpr ⟨hmem, by simp [hundecl]⟩
  have hk : k ∈ unknownKeys shape fields := by
    unfold unknownKeys
    exact List.mem_map.mpr ⟨(k, v), hfil, rfl⟩
  have hie : (unknownKeys shape fields).isEmpty = false := by
    cases hu : unknownKeys shape fields with
    | nil => rw [hu] at hk; cases hk
    | cons a l => rfl
  unfold strictParse
  simp [hie]

/-- C3: for a handler with a declared body shape (respectively query shape),
a request whose body (respectively query) contains a field not declared in
the shape makes the strict schema parse fail; the failure is raised as a
`BadRequestError` (status 400) carrying the raw validator issues as
structured details, and the original handler is never invoked (the result is
independent of the handler). -/
theorem C3_strict_inbound (shape : ZShape) (fields : List (String × Json))
    (k : String) (v : Json) (handler handler₂ : Request → Outcome) (query body : Json)
    (hmem : (k, v) ∈ fields) (hundecl : hasKey shape k = false) :
    BodyDto shape handler ⟨.obj fields, query⟩ =
      .thrown (.http (BadRequestError "Invalid Request body"
        (some (issuesJson (⟨unknownKeys shape fields, "Unrecognized key(s) in object"⟩ ::
          fieldIssues shape fields)))))
  ∧ QueryDto shape handler ⟨body, .obj fields⟩ =
      .thrown (.http (BadRequestError "Invalid Request query params"
        (some (issuesJson (⟨unknownKeys shape fields, "Unrecognized key(s) in object"⟩ ::
          fieldIssues shape fields)))))
  ∧ BodyDto shape handler ⟨.obj fields, query⟩ = BodyDto shape handler₂ ⟨.obj fields, query⟩
  ∧ QueryDto shape handler ⟨body, .obj fields⟩ = QueryDto shape handler₂ ⟨body, .obj fields⟩
  ∧ (∀ message details, (BadRequestError message details).statusCode = 400) := by
  have hsp := strictParse_undeclared_key shape fields k v hmem hundecl
  have hb : ∀ h : Request → Outcome, BodyDto shape h ⟨.obj fields, query⟩ =
      .thrown (.http (BadRequestError "Invalid Request body"
        (some (issuesJson (⟨unknownKeys shape fields, "Unrecognized key(s) in object"⟩ ::
          fieldIssues shape fields))))) := by
    intro h
    unfold BodyDto
    rw [show (Request.mk (.obj fields) query).body = .obj fields from rfl, hsp]
  have hq : ∀ h : Request → Outcome, QueryDto shape h ⟨body, .obj fields⟩ =
      .thrown (.http (BadRequestError "Invalid Request query params"
        (some (issuesJson (⟨unknownKeys shape fields, "Unrecognized key(s) in object"⟩ ::
          fieldIssues shape fields))))) := by
    intro h
    unfold QueryDto
    rw [show (Request.mk body (.obj fields)).query = .obj fields from rfl, hsp]
  exact ⟨hb handler, hq handler, (hb handler).trans (hb handler₂).symm,
    (hq handler).trans (hq handler₂).symm, fun _ _ => rfl⟩

/-- C3 — witness: a concrete body with the undeclared field `extra` is
rejected with a 400 `BadRequestError` carrying the unrecognized-key issue,
whichever handler is wrapped. -/
theorem C3_strict_inbound_witness :
    BodyDto [("name", ZType.string)] (fun _ => .ok .null)
        ⟨.obj [("name", .str "a"), ("extra", .num 1)], .null⟩ =
      .thrown (.http (BadRequestError "Invalid Request body"
        (some (issuesJson [⟨["extra"], "Unrecognized key(s) in object"⟩])))) :=
  (C3_strict_inbound [("name", ZType.string)] [("name", .str "a"), ("extra", .num 1)]
    "extra" (.num 1) (fun _ => .ok .null) (fun _ => .thrown (.other "x")) .null .null
    (List.Mem.tail _ (List.Mem.head _)) (by decide)).1

/-- C4: for a handler with a declared response shape, a return value failing
that shape is raised as an `InternalServerError` (status 500) whose message is
the fixed generic string `Invalid Response body` — the validator's field-level
issues appear only in the structured details, never in the message; and
outbound validation runs only on a value the handler actually produced — when
the handler raises a declared failure instead, the result does not depend on
the response schema at all. -/
theorem C4_outbound_validation (schema : ZSchema) (handler : Request → Outcome)
    (req : Request) (result : Json) (issues : List ZodIssue)
    (hrun : handler req = .ok result)
    (hfail : schema.parse result = .error issues) :
    ResponseDto schema handler req =
      .thrown (.http (InternalServerError "Invalid Response body" (some (issuesJson issues))))
  ∧ (∀ message details, (InternalServerError message details).statusCode = 500)
  ∧ (∀ (s₁ s₂ : ZSchema) (h : Request → Outcome) (r : Request) (e : HttpException),
      h r = .thrown (.http e) → ResponseDto s₁ h r = ResponseDto s₂ h r)
  ∧ (∀ (s : ZSchema) (h : Request → Outcome) (r : Request) (e : HttpException),
      h r = .thrown (.http e) → ResponseDto s h r = .thrown (.http e)) := by
  refine ⟨?_, fun _ _ => rfl, ?_, ?_⟩
  · simp [ResponseDto, hrun, hfail]
  · intro s₁ s₂ h r e he
    simp [ResponseDto, he]
  · intro s h r e he
    simp [ResponseDto, he]

/-- C4 — witness: a concrete handler returning a string where the response
schema requires a number yields the 500 `InternalServerError` with the fixed
message, the issue only in the details. -/
theorem C4_outbound_validation_witness :
    ResponseDto (.prim .number) (fun _ => .ok (.str "oops")) ⟨.null, .null⟩ =
      .thrown (.http (InternalServerError "Invalid Response body"
        (some (issuesJson [⟨[], "Invalid type"⟩])))) :=
  (C4_outbound_validation (.prim .number) (fun _ => .ok (.str "oops")) ⟨.null, .null⟩
    (.str "oops") [⟨[], "Invalid type"⟩] rfl rfl).1

/-- C5 — counterexample: an owner with no base-path metadata and one declared
route is claimed to be skipped entirely by route compilation; but `loadRoutes`
defaults its base path to `/` and mounts the route. -/
theorem C5_counterexample :
    loadRoutes [noBaseController] = [⟨"/", .get, "/ping", "ping"⟩] ∧
    loadRoutes [noBaseController] ≠ [] := by
  refine ⟨rfl, ?_⟩
  decide

/-- C5 (amended): documentation generation skips every owner whose base path
is missing (or empty) or whose route list is empty, recording a warning, and
the skip leaves every other owner's documented paths untouched; route
compilation, however, does not skip such an owner — a missing or empty base
path defaults to `/` and all of the owner's routes are still mounted (an
owner with zero routes simply contributes no mounted routes) — and in either
projection the other owners' entries are unaffected. -/
theorem C5_skip_semantics (c : Controller) (xs ys : List Controller) (title : String)
    (hskip : docSkip c = true) :
    OpenApiDoc (xs ++ c :: ys) title = OpenApiDoc (xs ++ ys) title
  ∧ docWarnings (xs ++ c :: ys) = docWarnings xs ++ docWarnMessage c :: docWarnings ys
  ∧ loadRoutes (xs ++ c :: ys) =
      loadRoutes xs ++
        c.routes.map (fun r => ⟨basePathOrDefault c.basePath, r.method, r.path, r.handlerName⟩) ++
        loadRoutes ys
  ∧ (strTruthy c.basePath = false → basePathOrDefault c.basePath = "/") := by
  have hadd : ∀ p, docAddController p c = p := fun p => by
    simp [docAddController, hskip]
  refine ⟨?_, ?_, ?_, ?_⟩
  · unfold OpenApiDoc
    rw [List.foldl_append, List.foldl_append, List.foldl_cons, hadd]
  · simp [docWarnings, List.filterMap_append, List.filterMap_cons, hskip]
  · simp [loadRoutes]
  · intro hbp
    cases hb : c.basePath with
    | none => rfl
    | some s =>
      rw [hb] at hbp
      simp [strTruthy] at hbp
      simp [basePathOrDefault, hbp]

/-- C5 — witness: the skip-semantics theorem applied to a concrete registry
holding only the base-path-less controller. -/
theorem C5_skip_semantics_witness :
    OpenApiDoc [noBaseController] "Docs" = OpenApiDoc [] "Docs" ∧
    docWarnings [noBaseController] = [docWarnMessage noBaseController] := by
  have h := C5_skip_semantics noBaseController [] [] "Docs" (by decide)
  exact ⟨h.1, h.2.1⟩

end FCJs
